import Mathlib

/-!
Verification of the Telegram/OpenRouter relay bot (src/main.py) against its
natural-language specification.

The program is shallowly embedded: the module-level mutable state
(`user_api_keys : dict[int, str]` and `waiting_for_key : set[int]`) becomes an
explicit `BotState` record threaded through the handlers; outbound HTTP calls
(Telegram sends, OpenRouter completion calls) become entries of an `Effect`
trace; the results of external network calls are supplied as oracle arguments.
Python truthiness on strings (`if text:`) is embedded as an emptiness test, and
`str.strip` / `str.startswith` are embedded as character-list operations.
-/

namespace TGBot

/-- Embedding of Python `str.strip`'s ASCII whitespace class: space, tab,
newline, carriage return, vertical tab and form feed. -/
def pyIsSpace (c : Char) : Bool :=
  c = ' ' || c = '\t' || c = '\n' || c = '\r' || c = '\x0b' || c = '\x0c'

/-- Embedding of Python `str.strip()` (no argument): drop leading and trailing
whitespace. -/
def pyStrip (s : String) : String :=
  String.mk (((s.data.dropWhile pyIsSpace).reverse.dropWhile pyIsSpace).reverse)

/-- Embedding of Python `s.startswith(pre)`. -/
def pyStartswith (s pre : String) : Bool :=
  pre.data.isPrefixOf s.data

/-- Embedding of Python truthiness for `Optional[str]`: `None` and `""` are
falsy, every other string is truthy (used for `if text:`, `if caption:`,
`if not api_key:`). -/
def pyTruthy (o : Option String) : Bool :=
  match o with
  | none => false
  | some s => !s.data.isEmpty

/-- The per-process session store of `main.py`:
`user_api_keys : dict[int, str]` maps a Telegram user id to the stored
OpenRouter key, `waiting_for_key : set[int]` holds the users who just ran
`/set_api_key`. -/
@[ext]
structure BotState where
  user_api_keys : Int → Option String
  waiting_for_key : Int → Bool

/-- The state at process start: empty dict, empty set. -/
def initState : BotState :=
  { user_api_keys := fun _ => none, waiting_for_key := fun _ => false }

/-- Observable outbound actions of one `handle_update` run: a raw Telegram
`sendMessage` call (one per chunk), a text completion call to OpenRouter
(`call_grok_text`), or a vision completion call (`analyze_image_with_grok`). -/
inductive Effect where
  | sendRaw (chat_id : Int) (text : String)
  | grokCall (api_key : String) (user_text : String)
  | visionCall (api_key : String) (prompt : String) (image_url : String)
deriving DecidableEq

/-- `MAX_LEN` from `send_message`. -/
def MAX_LEN : Nat := 4000

/-- The chunking loop of `send_message`: a text of length at most `MAX_LEN`
(including the empty text) is sent as one piece, otherwise the loop
`for i in range(0, len(text), MAX_LEN)` sends the slices
`text[i:i + MAX_LEN]` in order. -/
def chunkChars (l : List Char) : List (List Char) :=
  if l.length ≤ MAX_LEN then [l]
  else l.take MAX_LEN :: chunkChars (l.drop MAX_LEN)
termination_by l.length
decreasing_by
  simp only [List.length_drop]
  simp only [MAX_LEN] at *
  omega

/-- The successive pieces `send_message` pushes to `_send_message_raw`. -/
def send_chunks (text : String) : List String :=
  (chunkChars text.data).map String.mk

/-- Embedding of `send_message(chat_id, text)`: each chunk becomes one raw
outbound send, in order. -/
def send_message (chat_id : Int) (text : String) : List Effect :=
  (send_chunks text).map (Effect.sendRaw chat_id)

/-- Onboarding text of `handle_start`. -/
def START_TEXT : String :=
  "👋 Hi! I’m a Grok-powered bot via OpenRouter.\n\n" ++
  "I can:\n" ++
  "• Chat with you using text\n" ++
  "• Analyze images you send (photos)\n\n" ++
  "To use me, you need *your own* OpenRouter API key:\n" ++
  "1️⃣ Get an API key from OpenRouter.\n" ++
  "2️⃣ Use /set_api_key and send me your key.\n" ++
  "3️⃣ Then send text or photos and I’ll use Grok to respond.\n\n" ++
  "You can remove your key with /forget_key."

/-- Instruction text of `handle_set_api_key_command`. -/
def SET_KEY_TEXT : String :=
  "🔑 Please send me your *OpenRouter API key* as the **next message**.\n\n" ++
  "It will be kept only in memory in this simple version " ++
  "(if the bot restarts, you’ll need to set it again).\n\n" ++
  "You can clear it later with /forget_key."

/-- Confirmation sent when a pending key submission is stored. -/
def KEY_SAVED_TEXT : String := "✅ Your OpenRouter API key has been saved."

/-- The fixed missing-key warning of `handle_update`. -/
def NO_KEY_WARNING : String :=
  "⚠️ You haven’t set an OpenRouter API key yet.\nUse /set_api_key first."

/-- Confirmation text of `handle_forget_key`. -/
def KEY_REMOVED_TEXT : String := "✅ Your stored API key has been removed."

/-- Reply sent when `get_file_url` fails in the photo branch. -/
def FETCH_FAIL_TEXT : String := "❌ Couldn’t fetch the image from Telegram."

/-- Default vision prompt used when a photo has no caption. -/
def DEFAULT_PROMPT : String :=
  "Describe this image in detail and point out anything interesting or unusual."

/-- Embedding of `handle_start(chat_id)`. -/
def handle_start (chat_id : Int) (st : BotState) : BotState × List Effect :=
  (st, send_message chat_id START_TEXT)

/-- Embedding of `handle_set_api_key_command(chat_id, user_id)`:
`waiting_for_key.add(user_id)` then the instruction reply. -/
def handle_set_api_key_command (chat_id user_id : Int) (st : BotState) :
    BotState × List Effect :=
  ({ st with waiting_for_key := fun u => if u = user_id then true else st.waiting_for_key u },
   send_message chat_id SET_KEY_TEXT)

/-- Embedding of `handle_forget_key(chat_id, user_id)`:
`user_api_keys.pop(user_id, None)` and `waiting_for_key.discard(user_id)` are
total (no error when the key or marker is absent), then the confirmation. -/
def handle_forget_key (chat_id user_id : Int) (st : BotState) :
    BotState × List Effect :=
  ({ st with
      user_api_keys := fun u => if u = user_id then none else st.user_api_keys u,
      waiting_for_key := fun u => if u = user_id then false else st.waiting_for_key u },
   send_message chat_id KEY_REMOVED_TEXT)

/-- One inbound Telegram message as `handle_update` reads it:
`message["chat"]["id"]`, `message.get("from", \x7b\x7d).get("id")`,
`message.get("text")`, `message.get("photo")` (a list of photo sizes, kept as
their `file_id` strings), `message.get("caption")`. -/
structure Message where
  chat_id : Int
  from_id : Option Int
  text : Option String
  photo : Option (List String)
  caption : Option String

/-- One inbound Telegram update: `update.get("message")`. -/
structure Update where
  message : Option Message

/-- The text branch of `handle_update`, entered when `text` is truthy.
`text` here is already the raw message text; it is stripped first, then the
three commands are matched by prefix, then the pending-key marker is consulted,
and only then normal chat with the completion service happens. The oracle
`grok` gives the string returned by `call_grok_text`. -/
def handle_text (grok : String → String → String) (chat_id user_id : Int)
    (text₀ : String) (st : BotState) : BotState × List Effect :=
  let text := pyStrip text₀
  if pyStartswith text "/start" then
    handle_start chat_id st
  else if pyStartswith text "/set_api_key" then
    handle_set_api_key_command chat_id user_id st
  else if pyStartswith text "/forget_key" then
    handle_forget_key chat_id user_id st
  else if st.waiting_for_key user_id then
    ({ st with
        user_api_keys := fun u => if u = user_id then some text else st.user_api_keys u,
        waiting_for_key := fun u => if u = user_id then false else st.waiting_for_key u },
     send_message chat_id KEY_SAVED_TEXT)
  else
    match st.user_api_keys user_id with
    | none => (st, send_message chat_id NO_KEY_WARNING)
    | some api_key =>
      if api_key.data.isEmpty then (st, send_message chat_id NO_KEY_WARNING)
      else
        (st, Effect.grokCall api_key text :: send_message chat_id (grok api_key text))

/-- The photo branch of `handle_update`, entered when `text` is falsy and
`photo` is truthy (a non-empty list). `get_file_url` may raise inside the
`try`, modelled by the oracle returning `Except`; `photo[-1]["file_id"]` is the
last list element. The oracle `grokV` gives the string returned by
`analyze_image_with_grok`. -/
def handle_photo (grokV : String → String → String → String)
    (getFileUrl : String → Except String String) (chat_id user_id : Int)
    (photo : List String) (caption : Option String) (st : BotState) :
    BotState × List Effect :=
  match st.user_api_keys user_id with
  | none => (st, send_message chat_id NO_KEY_WARNING)
  | some api_key =>
    if api_key.data.isEmpty then (st, send_message chat_id NO_KEY_WARNING)
    else
      match getFileUrl (photo.getLastD "") with
      | Except.error _ => (st, send_message chat_id FETCH_FAIL_TEXT)
      | Except.ok image_url =>
        let prompt := if pyTruthy caption then pyStrip (caption.getD "") else DEFAULT_PROMPT
        (st, Effect.visionCall api_key prompt image_url ::
             send_message chat_id (grokV api_key prompt image_url))

/-- Embedding of `handle_update(update)`. Returns the session store after the
update together with the trace of outbound calls. An update with no
`message`, or whose message has no sender id, is ignored. A message whose
`text` is falsy falls through to the photo branch; a falsy `photo` is
ignored too. -/
def handle_update (grok : String → String → String)
    (grokV : String → String → String → String)
    (getFileUrl : String → Except String String)
    (st : BotState) (update : Update) : BotState × List Effect :=
  match update.message with
  | none => (st, [])
  | some message =>
    let chat_id := message.chat_id
    match message.from_id with
    | none => (st, [])
    | some user_id =>
      if pyTruthy message.text then
        handle_text grok chat_id user_id (message.text.getD "") st
      else
        match message.photo with
        | some photo =>
          if photo.isEmpty then (st, [])
          else handle_photo grokV getFileUrl chat_id user_id photo message.caption st
        | none => (st, [])

/-- What the webhook route hands back to the HTTP framework: either the fixed
acknowledgment `JSONResponse(content=\x7b"ok": True\x7d)` or an uncaught
exception propagating to the framework. -/
inductive WebhookResponse where
  | ack
  | raised (msg : String)
deriving DecidableEq

/-- Embedding of the `telegram_webhook` route. `body` is the outcome of
`await request.json()`: a parse failure raises before the `try` block and
propagates. Inside the `try`, `handle_update` runs; `handler` is universally
quantified so that a handler which itself raises (second component `some e`,
with whatever partial state and sends it produced) is covered: the
`except Exception` clause logs and swallows it and the acknowledgment is
returned regardless. -/
def telegram_webhook
    (handler : Update → BotState → Option String × BotState × List Effect)
    (body : Except String Update) (st : BotState) :
    WebhookResponse × BotState × List Effect :=
  match body with
  | Except.error e => (WebhookResponse.raised e, st, [])
  | Except.ok u =>
    let r := handler u st
    (WebhookResponse.ack, r.2.1, r.2.2)

/-- The embedded `handle_update`, packaged as a webhook handler (it never
raises: its exception component is `none`). -/
def handle_update_handler (grok : String → String → String)
    (grokV : String → String → String → String)
    (getFileUrl : String → Except String String) :
    Update → BotState → Option String × BotState × List Effect :=
  fun u st => (none, handle_update grok grokV getFileUrl st u)

/-- Outcome of the single `requests.post` to OpenRouter as `call_grok_text`
and `analyze_image_with_grok` observe it: the post raised a transport
exception; or it returned with a non-success status and a body; or it
returned successfully and extracting
`data["choices"][0]["message"]["content"]` either raised or produced the
content. -/
inductive HttpAttempt where
  | fail (e : String)
  | respNotOk (status : Nat) (body : String)
  | respOk (extract : Except String String)

/-- Embedding of `call_grok_text`: every branch, including both exception
paths, returns a string; nothing is re-raised. -/
def call_grok_text (attempt : HttpAttempt) : String :=
  match attempt with
  | HttpAttempt.fail e => "❌ Error talking to Grok: " ++ e
  | HttpAttempt.respNotOk status body =>
    "❌ OpenRouter error " ++ toString status ++ ": " ++ body
  | HttpAttempt.respOk (Except.error e) => "❌ Error talking to Grok: " ++ e
  | HttpAttempt.respOk (Except.ok content) => content

/-- Embedding of `analyze_image_with_grok`'s response handling (same shape as
`call_grok_text`, with the vision error wording). -/
def analyze_image_with_grok (attempt : HttpAttempt) : String :=
  match attempt with
  | HttpAttempt.fail e => "❌ Error while analyzing the image: " ++ e
  | HttpAttempt.respNotOk status body =>
    "❌ OpenRouter error " ++ toString status ++ ": " ++ body
  | HttpAttempt.respOk (Except.error e) => "❌ Error while analyzing the image: " ++ e
  | HttpAttempt.respOk (Except.ok content) => content

/-- A text-only update from user `uid` in chat `chat` (possibly also carrying
photo and caption fields, which the text branch ignores). -/
def textUpdate (chat uid : Int) (t : String) (photo : Option (List String))
    (caption : Option String) : Update :=
  { message := some
      { chat_id := chat, from_id := some uid, text := some t,
        photo := photo, caption := caption } }

/-- Fixed completion oracle used for concrete runs. -/
def oracleGrok : String → String → String := fun _ _ => "grok reply"

/-- Fixed vision oracle used for concrete runs. -/
def oracleVision : String → String → String → String := fun _ _ _ => "vision reply"

/-- Fixed file-resolution oracle used for concrete runs. -/
def oracleGetFile : String → Except String String := fun _ => Except.ok "https://file"

/-- A reply body of length 8500, for the chunking property. -/
def replyOf8500 : String := String.mk (List.replicate 8500 'x')

/-! ## Helper lemmas -/

lemma chunkChars_short {l : List Char} (h : l.length ≤ MAX_LEN) : chunkChars l = [l] := by
  rw [chunkChars]
  simp [h]

lemma chunkChars_long {l : List Char} (h : MAX_LEN < l.length) :
    chunkChars l = l.take MAX_LEN :: chunkChars (l.drop MAX_LEN) := by
  rw [chunkChars]
  simp [Nat.not_le.mpr h]

lemma mk_data (s : String) : String.mk s.data = s := rfl

lemma send_message_short {text : String} (h : text.data.length ≤ MAX_LEN) (c : Int) :
    send_message c text = [Effect.sendRaw c text] := by
  simp [send_message, send_chunks, chunkChars_short h, mk_data]

lemma pyStrip_of_all_space {s : String} (h : s.data.all pyIsSpace = true) :
    pyStrip s = "" := by
  have h' : ∀ c ∈ s.data, pyIsSpace c := by
    intro c hc
    exact List.all_eq_true.mp h c hc
  simp [pyStrip, List.dropWhile_eq_nil_iff.mpr h']

lemma chunkChars_ne_nil (l : List Char) : chunkChars l ≠ [] := by
  rw [chunkChars]
  split <;> simp

lemma chunkChars_flatten (l : List Char) : (chunkChars l).flatten = l := by
  induction l using chunkChars.induct with
  | case1 l h => rw [chunkChars_short h]; simp
  | case2 l h ih =>
    rw [chunkChars_long (Nat.not_le.mp h)]
    simp [ih]

lemma chunkChars_dropLast (l : List Char) :
    ∀ c ∈ (chunkChars l).dropLast, c.length = MAX_LEN := by
  induction l using chunkChars.induct with
  | case1 l h => rw [chunkChars_short h]; simp
  | case2 l h ih =>
    rw [chunkChars_long (Nat.not_le.mp h),
        List.dropLast_cons_of_ne_nil (chunkChars_ne_nil _)]
    intro c hc
    rcases List.mem_cons.mp hc with hc | hc
    · subst hc
      have := Nat.not_le.mp h
      simp [List.length_take]
      omega
    · exact ih c hc

lemma chunkChars_of_8500 {l : List Char} (h : l.length = 8500) :
    (chunkChars l).map List.length = [4000, 4000, 500] := by
  have h1 : chunkChars l = l.take MAX_LEN :: chunkChars (l.drop MAX_LEN) :=
    chunkChars_long (by simp [MAX_LEN, h])
  have h2 : chunkChars (l.drop MAX_LEN) =
      (l.drop MAX_LEN).take MAX_LEN :: chunkChars ((l.drop MAX_LEN).drop MAX_LEN) :=
    chunkChars_long (by simp [MAX_LEN, h])
  have h3 : chunkChars ((l.drop MAX_LEN).drop MAX_LEN) = [(l.drop MAX_LEN).drop MAX_LEN] :=
    chunkChars_short (by simp [MAX_LEN, h])
  rw [h1, h2, h3]
  simp [MAX_LEN, h]

lemma handle_update_set_api_key (grok : String → String → String)
    (grokV : String → String → String → String)
    (getFileUrl : String → Except String String) (st : BotState) (chat uid : Int)
    (photo : Option (List String)) (caption : Option String) :
    handle_update grok grokV getFileUrl st
        (textUpdate chat uid "/set_api_key" photo caption) =
      ({ st with waiting_for_key := fun u => if u = uid then true else st.waiting_for_key u },
        send_message chat SET_KEY_TEXT) := by
  have e1 : pyTruthy (some "/set_api_key") = true := by decide
  have e2 : pyStartswith (pyStrip "/set_api_key") "/start" = false := by decide
  have e3 : pyStartswith (pyStrip "/set_api_key") "/set_api_key" = true := by decide
  simp [handle_update, textUpdate, handle_text, handle_set_api_key_command, e1, e2, e3]

lemma set_api_key_state (grok : String → String → String)
    (grokV : String → String → String → String)
    (getFileUrl : String → Except String String) (st : BotState) (chat uid : Int)
    (photo : Option (List String)) (caption : Option String) :
    (handle_update grok grokV getFileUrl st
        (textUpdate chat uid "/set_api_key" photo caption)).1 =
      { st with waiting_for_key := fun u => if u = uid then true else st.waiting_for_key u } := by
  rw [handle_update_set_api_key]

lemma handle_update_pending_submission (grok : String → String → String)
    (grokV : String → String → String → String)
    (getFileUrl : String → Except String String) (st : BotState) (chat uid : Int)
    (t : String) (photo : Option (List String)) (caption : Option String)
    (ht : t.data.isEmpty = false)
    (h1 : pyStartswith (pyStrip t) "/start" = false)
    (h2 : pyStartswith (pyStrip t) "/set_api_key" = false)
    (h3 : pyStartswith (pyStrip t) "/forget_key" = false)
    (hw : st.waiting_for_key uid = true) :
    handle_update grok grokV getFileUrl st (textUpdate chat uid t photo caption) =
      ({ st with
          user_api_keys := fun u => if u = uid then some (pyStrip t) else st.user_api_keys u,
          waiting_for_key := fun u => if u = uid then false else st.waiting_for_key u },
        [Effect.sendRaw chat KEY_SAVED_TEXT]) := by
  have hsend : send_message chat KEY_SAVED_TEXT = [Effect.sendRaw chat KEY_SAVED_TEXT] :=
    send_message_short (by decide) chat
  simp [handle_update, textUpdate, pyTruthy, ht, handle_text, h1, h2, h3, hw, hsend]

lemma handle_update_empty_key_warning (grok : String → String → String)
    (grokV : String → String → String → String)
    (getFileUrl : String → Except String String) (st : BotState) (chat uid : Int)
    (t : String) (photo : Option (List String)) (caption : Option String)
    (ht : t.data.isEmpty = false)
    (h1 : pyStartswith (pyStrip t) "/start" = false)
    (h2 : pyStartswith (pyStrip t) "/set_api_key" = false)
    (h3 : pyStartswith (pyStrip t) "/forget_key" = false)
    (hw : st.waiting_for_key uid = false)
    (hk : st.user_api_keys uid = some "") :
    handle_update grok grokV getFileUrl st (textUpdate chat uid t photo caption) =
      (st, [Effect.sendRaw chat NO_KEY_WARNING]) := by
  have hsend : send_message chat NO_KEY_WARNING = [Effect.sendRaw chat NO_KEY_WARNING] :=
    send_message_short (by decide) chat
  simp [handle_update, textUpdate, pyTruthy, ht, handle_text, h1, h2, h3, hw, hk, hsend]

/-! ## Claim theorems -/

/-- Claim C1 (amended): for every inbound request whose body parses as JSON,
whatever the parsed update contains and whatever the handler does with it —
including raising an exception, with arbitrary partial state mutation and
outbound sends — the webhook responds with the fixed acknowledgment; a body
that fails JSON parsing, however, raises before the guarded region. -/
theorem c1_webhook_always_ack
    (handler : Update → BotState → Option String × BotState × List Effect)
    (st : BotState) (u : Update) (e : String) :
    (telegram_webhook handler (Except.ok u) st).1 = WebhookResponse.ack ∧
    (telegram_webhook handler (Except.error e) st).1 = WebhookResponse.raised e :=
  ⟨rfl, rfl⟩

/-- Claim C1, counterexample to the claim as stated: a request whose body is
not valid JSON (the parse of the body fails) is answered by a propagated
exception, not by the fixed acknowledgment, because `await request.json()`
runs before the `try` block. -/
theorem c1_malformed_body_counterexample :
    (telegram_webhook (handle_update_handler oracleGrok oracleVision oracleGetFile)
        (Except.error "Expecting value: line 1 column 1 (char 0)") initState).1 ≠
      WebhookResponse.ack := by
  decide

/-- Claim C3: a reply longer than the 4000-unit threshold is split into
consecutive chunks — every chunk before the last has length exactly 4000, the
concatenation of the chunks in send order is the original reply, a reply of
length 8500 gives exactly the chunk lengths 4000, 4000, 500, and
`send_message` emits exactly one outbound send per chunk, in order. -/
theorem c3_long_reply_chunking (chat : Int) (s : String) (_h : MAX_LEN < s.data.length) :
    ((send_chunks s).map String.data).flatten = s.data ∧
    (∀ c ∈ (send_chunks s).dropLast, c.data.length = MAX_LEN) ∧
    (s.data.length = 8500 →
      (send_chunks s).map (fun c => c.data.length) = [4000, 4000, 500]) ∧
    send_message chat s = (send_chunks s).map (Effect.sendRaw chat) := by
  refine ⟨?_, ?_, ?_, rfl⟩
  · simp only [send_chunks, List.map_map]
    have : (String.data ∘ String.mk) = id := rfl
    rw [this, List.map_id]
    exact chunkChars_flatten s.data
  · intro c hc
    simp only [send_chunks] at hc
    rw [← List.map_dropLast] at hc
    rcases List.mem_map.mp hc with ⟨l, hl, rfl⟩
    exact chunkChars_dropLast s.data l hl
  · intro h8500
    have := chunkChars_of_8500 h8500
    simpa [send_chunks, List.map_map, Function.comp] using this

/-- Claim C3 witness: the concrete reply of length 8500 exceeds the threshold
and is sent as exactly the chunk lengths 4000, 4000, 500. -/
theorem c3_long_reply_chunking_witness :
    MAX_LEN < replyOf8500.data.length ∧ replyOf8500.data.length = 8500 ∧
    (send_chunks replyOf8500).map (fun c => c.data.length) = [4000, 4000, 500] := by
  have hlen : replyOf8500.data.length = 8500 := by
    have hdata : replyOf8500.data = List.replicate 8500 'x' := rfl
    rw [hdata, List.length_replicate]
  have hgt : MAX_LEN < replyOf8500.data.length := by
    rw [hlen]; simp [MAX_LEN]
  exact ⟨hgt, hlen, ((c3_long_reply_chunking 0 replyOf8500 hgt).2.2.1 hlen)⟩

/-- Claim C8: a downstream completion call that comes back with a non-success
status yields the fixed error reply embedding the status code and body; a
transport failure (or a failure extracting the content from the response JSON)
yields the fixed error reply embedding the exception text; both `call_grok_text`
and `analyze_image_with_grok` return these strings rather than raising. -/
theorem c8_downstream_error_strings (status : Nat) (body e : String) :
    call_grok_text (HttpAttempt.respNotOk status body) =
      "❌ OpenRouter error " ++ toString status ++ ": " ++ body ∧
    (∃ pre post, call_grok_text (HttpAttempt.respNotOk status body) =
      pre ++ toString status ++ post) ∧
    call_grok_text (HttpAttempt.fail e) = "❌ Error talking to Grok: " ++ e ∧
    call_grok_text (HttpAttempt.respOk (Except.error e)) =
      "❌ Error talking to Grok: " ++ e ∧
    analyze_image_with_grok (HttpAttempt.respNotOk status body) =
      "❌ OpenRouter error " ++ toString status ++ ": " ++ body ∧
    (∃ pre post, analyze_image_with_grok (HttpAttempt.respNotOk status body) =
      pre ++ toString status ++ post) ∧
    analyze_image_with_grok (HttpAttempt.fail e) =
      "❌ Error while analyzing the image: " ++ e ∧
    analyze_image_with_grok (HttpAttempt.respOk (Except.error e)) =
      "❌ Error while analyzing the image: " ++ e := by
  refine ⟨rfl, ⟨"❌ OpenRouter error ", ": " ++ body, ?_⟩, rfl, rfl, rfl,
    ⟨"❌ OpenRouter error ", ": " ++ body, ?_⟩, rfl, rfl⟩ <;>
    simp [call_grok_text, analyze_image_with_grok, String.append_assoc]

/-- Claim C4: a non-command text message from a user who is not pending and
has no stored credential is answered with exactly the fixed missing-key
warning, the session store is returned unchanged, and no downstream completion
call appears in the trace. -/
theorem c4_missing_key_warning (grok : String → String → String)
    (grokV : String → String → String → String)
    (getFileUrl : String → Except String String) (st : BotState) (chat uid : Int)
    (t : String) (photo : Option (List String)) (caption : Option String)
    (ht : t.data.isEmpty = false)
    (h1 : pyStartswith (pyStrip t) "/start" = false)
    (h2 : pyStartswith (pyStrip t) "/set_api_key" = false)
    (h3 : pyStartswith (pyStrip t) "/forget_key" = false)
    (hw : st.waiting_for_key uid = false)
    (hk : st.user_api_keys uid = none) :
    handle_update grok grokV getFileUrl st (textUpdate chat uid t photo caption) =
      (st, [Effect.sendRaw chat NO_KEY_WARNING]) ∧
    ∀ k x, Effect.grokCall k x ∉
      (handle_update grok grokV getFileUrl st (textUpdate chat uid t photo caption)).2 := by
  have hsend : send_message chat NO_KEY_WARNING = [Effect.sendRaw chat NO_KEY_WARNING] :=
    send_message_short (by decide) chat
  have hmain : handle_update grok grokV getFileUrl st (textUpdate chat uid t photo caption) =
      (st, [Effect.sendRaw chat NO_KEY_WARNING]) := by
    simp [handle_update, textUpdate, pyTruthy, ht, handle_text, h1, h2, h3, hw, hk, hsend]
  refine ⟨hmain, ?_⟩
  rw [hmain]
  simp

/-- Claim C4 witness: the concrete run — user 1 with the empty initial store
sends "hello" — yields exactly the warning and an unchanged store. -/
theorem c4_missing_key_warning_witness :
    ("hello").data.isEmpty = false ∧
    pyStartswith (pyStrip "hello") "/start" = false ∧
    pyStartswith (pyStrip "hello") "/set_api_key" = false ∧
    pyStartswith (pyStrip "hello") "/forget_key" = false ∧
    initState.waiting_for_key 1 = false ∧
    initState.user_api_keys 1 = none ∧
    (handle_update oracleGrok oracleVision oracleGetFile initState
        (textUpdate 10 1 "hello" none none) =
      (initState, [Effect.sendRaw 10 NO_KEY_WARNING])) :=
  ⟨by decide, by decide, by decide, by decide, rfl, rfl,
    (c4_missing_key_warning oracleGrok oracleVision oracleGetFile initState 10 1 "hello"
      none none (by decide) (by decide) (by decide) (by decide) rfl rfl).1⟩

/-- Claim C6: a `/forget_key` message, from any prior state (credential present
or absent, pending or not), leaves the user with no stored credential and not
pending, emits exactly the confirmation reply, and touches no other user's
entries; the removal operations are total, so no error arises when the
credential or the marker was already absent. -/
theorem c6_forget_key_clears (grok : String → String → String)
    (grokV : String → String → String → String)
    (getFileUrl : String → Except String String) (st : BotState) (chat uid : Int)
    (photo : Option (List String)) (caption : Option String) :
    (handle_update grok grokV getFileUrl st
        (textUpdate chat uid "/forget_key" photo caption)).1.user_api_keys uid = none ∧
    (handle_update grok grokV getFileUrl st
        (textUpdate chat uid "/forget_key" photo caption)).1.waiting_for_key uid = false ∧
    (handle_update grok grokV getFileUrl st
        (textUpdate chat uid "/forget_key" photo caption)).2 =
      [Effect.sendRaw chat KEY_REMOVED_TEXT] ∧
    ∀ u, u ≠ uid →
      (handle_update grok grokV getFileUrl st
          (textUpdate chat uid "/forget_key" photo caption)).1.user_api_keys u =
        st.user_api_keys u ∧
      (handle_update grok grokV getFileUrl st
          (textUpdate chat uid "/forget_key" photo caption)).1.waiting_for_key u =
        st.waiting_for_key u := by
  have e1 : pyTruthy (some "/forget_key") = true := by decide
  have e2 : pyStartswith (pyStrip "/forget_key") "/start" = false := by decide
  have e3 : pyStartswith (pyStrip "/forget_key") "/set_api_key" = false := by decide
  have e4 : pyStartswith (pyStrip "/forget_key") "/forget_key" = true := by decide
  have hsend : send_message chat KEY_REMOVED_TEXT = [Effect.sendRaw chat KEY_REMOVED_TEXT] :=
    send_message_short (by decide) chat
  have hmain : handle_update grok grokV getFileUrl st
      (textUpdate chat uid "/forget_key" photo caption) =
      ({ st with
          user_api_keys := fun u => if u = uid then none else st.user_api_keys u,
          waiting_for_key := fun u => if u = uid then false else st.waiting_for_key u },
        [Effect.sendRaw chat KEY_REMOVED_TEXT]) := by
    simp [handle_update, textUpdate, handle_text, handle_forget_key, e1, e2, e3, e4, hsend]
  rw [hmain]
  refine ⟨by simp, by simp, rfl, ?_⟩
  intro u hu
  simp [hu]

/-- Claim C6 witness: user 1, holding a stored credential and pending, sends
`/forget_key`: the credential and the marker are gone, exactly the
confirmation is sent, and user 2's (absent) entries are untouched. -/
theorem c6_forget_key_clears_witness :
    (handle_update oracleGrok oracleVision oracleGetFile
        { user_api_keys := fun u => if u = 1 then some "oldkey" else none,
          waiting_for_key := fun u => u = 1 }
        (textUpdate 10 1 "/forget_key" none none)).1.user_api_keys 1 = none ∧
    (handle_update oracleGrok oracleVision oracleGetFile
        { user_api_keys := fun u => if u = 1 then some "oldkey" else none,
          waiting_for_key := fun u => u = 1 }
        (textUpdate 10 1 "/forget_key" none none)).1.waiting_for_key 1 = false ∧
    (handle_update oracleGrok oracleVision oracleGetFile
        { user_api_keys := fun u => if u = 1 then some "oldkey" else none,
          waiting_for_key := fun u => u = 1 }
        (textUpdate 10 1 "/forget_key" none none)).2 =
      [Effect.sendRaw 10 KEY_REMOVED_TEXT] ∧
    (2 : Int) ≠ 1 ∧
    (handle_update oracleGrok oracleVision oracleGetFile
        { user_api_keys := fun u => if u = 1 then some "oldkey" else none,
          waiting_for_key := fun u => u = 1 }
        (textUpdate 10 1 "/forget_key" none none)).1.user_api_keys 2 =
      ({ user_api_keys := fun u => if u = 1 then some "oldkey" else none,
          waiting_for_key := fun u => u = 1 } : BotState).user_api_keys 2 :=
  ⟨(c6_forget_key_clears oracleGrok oracleVision oracleGetFile
      { user_api_keys := fun u => if u = 1 then some "oldkey" else none,
        waiting_for_key := fun u => u = 1 } 10 1 none none).1,
    (c6_forget_key_clears oracleGrok oracleVision oracleGetFile
      { user_api_keys := fun u => if u = 1 then some "oldkey" else none,
        waiting_for_key := fun u => u = 1 } 10 1 none none).2.1,
    (c6_forget_key_clears oracleGrok oracleVision oracleGetFile
      { user_api_keys := fun u => if u = 1 then some "oldkey" else none,
        waiting_for_key := fun u => u = 1 } 10 1 none none).2.2.1,
    by decide,
    ((c6_forget_key_clears oracleGrok oracleVision oracleGetFile
      { user_api_keys := fun u => if u = 1 then some "oldkey" else none,
        waiting_for_key := fun u => u = 1 } 10 1 none none).2.2.2 2 (by decide)).1⟩

/-- Claim C2 (amended): the pending-key marker is added when the user issues
`/set_api_key` and removed on that user's next text message whose stripped text
does not begin with `/start` or `/set_api_key` (this covers key submissions,
ordinary chat, the missing-key warning path and `/forget_key`); a text message
beginning with `/start` leaves the marker state untouched, so membership can
survive such an intervening message. -/
theorem c2_pending_marker_amended (grok : String → String → String)
    (grokV : String → String → String → String)
    (getFileUrl : String → Except String String) (st : BotState) (chat uid : Int)
    (t : String) (photo : Option (List String)) (caption : Option String)
    (ht : t.data.isEmpty = false) :
    (pyStartswith (pyStrip t) "/start" = false →
      pyStartswith (pyStrip t) "/set_api_key" = true →
      (handle_update grok grokV getFileUrl st
          (textUpdate chat uid t photo caption)).1.waiting_for_key uid = true) ∧
    (pyStartswith (pyStrip t) "/start" = false →
      pyStartswith (pyStrip t) "/set_api_key" = false →
      (handle_update grok grokV getFileUrl st
          (textUpdate chat uid t photo caption)).1.waiting_for_key uid = false) ∧
    (pyStartswith (pyStrip t) "/start" = true →
      (handle_update grok grokV getFileUrl st
          (textUpdate chat uid t photo caption)).1.waiting_for_key uid =
        st.waiting_for_key uid) := by
  refine ⟨?_, ?_, ?_⟩
  · intro h1 h2
    simp [handle_update, textUpdate, pyTruthy, ht, handle_text, h1, h2,
      handle_set_api_key_command]
  · intro h1 h2
    by_cases h3 : pyStartswith (pyStrip t) "/forget_key" = true
    · simp [handle_update, textUpdate, pyTruthy, ht, handle_text, h1, h2, h3,
        handle_forget_key]
    · rw [Bool.not_eq_true] at h3
      by_cases hw : st.waiting_for_key uid = true
      · simp [handle_update, textUpdate, pyTruthy, ht, handle_text, h1, h2, h3, hw]
      · rw [Bool.not_eq_true] at hw
        rcases hk : st.user_api_keys uid with _ | key
        · simp [handle_update, textUpdate, pyTruthy, ht, handle_text, h1, h2, h3, hw, hk]
        · by_cases hke : key.data.isEmpty = true
          · simp [handle_update, textUpdate, pyTruthy, ht, handle_text, h1, h2, h3, hw,
              hk, hke]
          · rw [Bool.not_eq_true] at hke
            simp [handle_update, textUpdate, pyTruthy, ht, handle_text, h1, h2, h3, hw,
              hk, hke]
  · intro h1
    simp [handle_update, textUpdate, pyTruthy, ht, handle_text, h1, handle_start]

/-- Claim C2 witness: a pending user (user 1 just ran `/set_api_key`) sends the
non-command text "hi" and is no longer pending. -/
theorem c2_pending_marker_amended_witness :
    ("hi").data.isEmpty = false ∧
    pyStartswith (pyStrip "hi") "/start" = false ∧
    pyStartswith (pyStrip "hi") "/set_api_key" = false ∧
    (handle_update oracleGrok oracleVision oracleGetFile
        (handle_set_api_key_command 10 1 initState).1
        (textUpdate 10 1 "hi" none none)).1.waiting_for_key 1 = false :=
  ⟨by decide, by decide, by decide,
    (c2_pending_marker_amended oracleGrok oracleVision oracleGetFile
        (handle_set_api_key_command 10 1 initState).1 10 1 "hi" none none
        (by decide)).2.1 (by decide) (by decide)⟩

/-- Claim C2, counterexample to the claim as stated: after `/set_api_key`,
user 1's next text message is "/start"; the commands are matched before the
pending-key branch, so the user is still in the marker set afterwards — the
marker is not removed on the next text message whatever its content. -/
theorem c2_pending_survives_start_counterexample :
    (handle_update oracleGrok oracleVision oracleGetFile
        (handle_update oracleGrok oracleVision oracleGetFile initState
          (textUpdate 10 1 "/set_api_key" none none)).1
        (textUpdate 10 1 "/start" none none)).1.waiting_for_key 1 = true := by
  decide

/-- Claim C5: after `/set_api_key` and then a non-command text message, the
entire trimmed text is stored as that user's credential, the pending marker is
removed, and exactly the confirmation reply is emitted. -/
theorem c5_key_submission_stores_trimmed (grok : String → String → String)
    (grokV : String → String → String → String)
    (getFileUrl : String → Except String String) (st : BotState) (chat uid : Int)
    (t : String) (ph1 ph2 : Option (List String)) (cp1 cp2 : Option String)
    (ht : t.data.isEmpty = false)
    (h1 : pyStartswith (pyStrip t) "/start" = false)
    (h2 : pyStartswith (pyStrip t) "/set_api_key" = false)
    (h3 : pyStartswith (pyStrip t) "/forget_key" = false) :
    (handle_update grok grokV getFileUrl
        (handle_update grok grokV getFileUrl st
          (textUpdate chat uid "/set_api_key" ph1 cp1)).1
        (textUpdate chat uid t ph2 cp2)).1.user_api_keys uid = some (pyStrip t) ∧
    (handle_update grok grokV getFileUrl
        (handle_update grok grokV getFileUrl st
          (textUpdate chat uid "/set_api_key" ph1 cp1)).1
        (textUpdate chat uid t ph2 cp2)).1.waiting_for_key uid = false ∧
    (handle_update grok grokV getFileUrl
        (handle_update grok grokV getFileUrl st
          (textUpdate chat uid "/set_api_key" ph1 cp1)).1
        (textUpdate chat uid t ph2 cp2)).2 = [Effect.sendRaw chat KEY_SAVED_TEXT] := by
  rw [set_api_key_state]
  rw [handle_update_pending_submission grok grokV getFileUrl _ chat uid t ph2 cp2
    ht h1 h2 h3 (by simp)]
  exact ⟨by simp, by simp, rfl⟩

/-- Claim C5 witness: from the empty store, `/set_api_key` then "abc123"
leaves user 1 with the stored credential "abc123" and not pending. -/
theorem c5_key_submission_stores_trimmed_witness :
    ("abc123").data.isEmpty = false ∧
    pyStartswith (pyStrip "abc123") "/start" = false ∧
    pyStartswith (pyStrip "abc123") "/set_api_key" = false ∧
    pyStartswith (pyStrip "abc123") "/forget_key" = false ∧
    (handle_update oracleGrok oracleVision oracleGetFile
        (handle_update oracleGrok oracleVision oracleGetFile initState
          (textUpdate 10 1 "/set_api_key" none none)).1
        (textUpdate 10 1 "abc123" none none)).1.user_api_keys 1 = some "abc123" ∧
    (handle_update oracleGrok oracleVision oracleGetFile
        (handle_update oracleGrok oracleVision oracleGetFile initState
          (textUpdate 10 1 "/set_api_key" none none)).1
        (textUpdate 10 1 "abc123" none none)).1.waiting_for_key 1 = false := by
  have h := c5_key_submission_stores_trimmed oracleGrok oracleVision oracleGetFile initState
    10 1 "abc123" none none none none (by decide) (by decide) (by decide) (by decide)
  have hstrip : pyStrip "abc123" = "abc123" := by decide
  rw [hstrip] at h
  exact ⟨by decide, by decide, by decide, by decide, h.1, h.2.1⟩

/-- Claim C7: issuing `/set_api_key` twice in a row is idempotent on the
session store — the state after the second command equals the state after the
first, and neither touches the credential map — and the following non-command
text message is stored as the credential exactly once, with exactly one
confirmation reply, leaving the user not pending. -/
theorem c7_set_api_key_idempotent (grok : String → String → String)
    (grokV : String → String → String → String)
    (getFileUrl : String → Except String String) (st : BotState) (chat uid : Int)
    (t : String) (ph1 ph2 ph3 : Option (List String)) (cp1 cp2 cp3 : Option String)
    (ht : t.data.isEmpty = false)
    (h1 : pyStartswith (pyStrip t) "/start" = false)
    (h2 : pyStartswith (pyStrip t) "/set_api_key" = false)
    (h3 : pyStartswith (pyStrip t) "/forget_key" = false) :
    (handle_update grok grokV getFileUrl
        (handle_update grok grokV getFileUrl st
          (textUpdate chat uid "/set_api_key" ph1 cp1)).1
        (textUpdate chat uid "/set_api_key" ph2 cp2)).1 =
      (handle_update grok grokV getFileUrl st
        (textUpdate chat uid "/set_api_key" ph1 cp1)).1 ∧
    (handle_update grok grokV getFileUrl st
        (textUpdate chat uid "/set_api_key" ph1 cp1)).1.user_api_keys =
      st.user_api_keys ∧
    (handle_update grok grokV getFileUrl
        (handle_update grok grokV getFileUrl
          (handle_update grok grokV getFileUrl st
            (textUpdate chat uid "/set_api_key" ph1 cp1)).1
          (textUpdate chat uid "/set_api_key" ph2 cp2)).1
        (textUpdate chat uid t ph3 cp3)).1.user_api_keys uid = some (pyStrip t) ∧
    (handle_update grok grokV getFileUrl
        (handle_update grok grokV getFileUrl
          (handle_update grok grokV getFileUrl st
            (textUpdate chat uid "/set_api_key" ph1 cp1)).1
          (textUpdate chat uid "/set_api_key" ph2 cp2)).1
        (textUpdate chat uid t ph3 cp3)).1.waiting_for_key uid = false ∧
    (handle_update grok grokV getFileUrl
        (handle_update grok grokV getFileUrl
          (handle_update grok grokV getFileUrl st
            (textUpdate chat uid "/set_api_key" ph1 cp1)).1
          (textUpdate chat uid "/set_api_key" ph2 cp2)).1
        (textUpdate chat uid t ph3 cp3)).2 = [Effect.sendRaw chat KEY_SAVED_TEXT] := by
  have hidem : (handle_update grok grokV getFileUrl
      (handle_update grok grokV getFileUrl st
        (textUpdate chat uid "/set_api_key" ph1 cp1)).1
      (textUpdate chat uid "/set_api_key" ph2 cp2)).1 =
      (handle_update grok grokV getFileUrl st
        (textUpdate chat uid "/set_api_key" ph1 cp1)).1 := by
    rw [set_api_key_state, set_api_key_state]
    ext u
    · simp
    · by_cases hu : u = uid <;> simp [hu]
  refine ⟨hidem, ?_, ?_, ?_, ?_⟩
  · rw [set_api_key_state]
  all_goals
    rw [hidem, set_api_key_state,
      handle_update_pending_submission grok grokV getFileUrl _ chat uid t ph3 cp3
        ht h1 h2 h3 (by simp)]
  all_goals simp

/-- Claim C7 witness: from the empty store, `/set_api_key` twice then "mykey"
gives the stored credential for user 1 and a cleared pending marker. -/
theorem c7_set_api_key_idempotent_witness :
    ("mykey").data.isEmpty = false ∧
    pyStartswith (pyStrip "mykey") "/start" = false ∧
    pyStartswith (pyStrip "mykey") "/set_api_key" = false ∧
    pyStartswith (pyStrip "mykey") "/forget_key" = false ∧
    (handle_update oracleGrok oracleVision oracleGetFile
        (handle_update oracleGrok oracleVision oracleGetFile
          (handle_update oracleGrok oracleVision oracleGetFile initState
            (textUpdate 10 1 "/set_api_key" none none)).1
          (textUpdate 10 1 "/set_api_key" none none)).1
        (textUpdate 10 1 "mykey" none none)).1.user_api_keys 1 = some (pyStrip "mykey") ∧
    (handle_update oracleGrok oracleVision oracleGetFile
        (handle_update oracleGrok oracleVision oracleGetFile
          (handle_update oracleGrok oracleVision oracleGetFile initState
            (textUpdate 10 1 "/set_api_key" none none)).1
          (textUpdate 10 1 "/set_api_key" none none)).1
        (textUpdate 10 1 "mykey" none none)).1.waiting_for_key 1 = false :=
  ⟨by decide, by decide, by decide, by decide,
    (c7_set_api_key_idempotent oracleGrok oracleVision oracleGetFile initState 10 1 "mykey"
      none none none none none none (by decide) (by decide) (by decide) (by decide)).2.2.1,
    (c7_set_api_key_idempotent oracleGrok oracleVision oracleGetFile initState 10 1 "mykey"
      none none none none none none (by decide) (by decide) (by decide) (by decide)).2.2.2.1⟩

/-- Claim C9: a pending user who sends a whitespace-only text message gets the
empty string stored as their credential, is removed from the pending set, and
receives the success confirmation; because the credential-present check treats
the empty string as absent, a subsequent non-command text message yields the
missing-key warning, leaves the store unchanged, and makes no downstream
call. -/
theorem c9_whitespace_key_lockout (grok : String → String → String)
    (grokV : String → String → String → String)
    (getFileUrl : String → Except String String) (st : BotState) (chat uid : Int)
    (ws t : String) (ph1 ph2 : Option (List String)) (cp1 cp2 : Option String)
    (hw : st.waiting_for_key uid = true)
    (hws1 : ws.data.isEmpty = false)
    (hws2 : ws.data.all pyIsSpace = true)
    (ht : t.data.isEmpty = false)
    (h1 : pyStartswith (pyStrip t) "/start" = false)
    (h2 : pyStartswith (pyStrip t) "/set_api_key" = false)
    (h3 : pyStartswith (pyStrip t) "/forget_key" = false) :
    (handle_update grok grokV getFileUrl st
        (textUpdate chat uid ws ph1 cp1)).1.user_api_keys uid = some "" ∧
    (handle_update grok grokV getFileUrl st
        (textUpdate chat uid ws ph1 cp1)).1.waiting_for_key uid = false ∧
    (handle_update grok grokV getFileUrl st
        (textUpdate chat uid ws ph1 cp1)).2 = [Effect.sendRaw chat KEY_SAVED_TEXT] ∧
    handle_update grok grokV getFileUrl
        (handle_update grok grokV getFileUrl st (textUpdate chat uid ws ph1 cp1)).1
        (textUpdate chat uid t ph2 cp2) =
      ((handle_update grok grokV getFileUrl st (textUpdate chat uid ws ph1 cp1)).1,
        [Effect.sendRaw chat NO_KEY_WARNING]) ∧
    ∀ k x, Effect.grokCall k x ∉
      (handle_update grok grokV getFileUrl
          (handle_update grok grokV getFileUrl st (textUpdate chat uid ws ph1 cp1)).1
          (textUpdate chat uid t ph2 cp2)).2 := by
  have hstrip : pyStrip ws = "" := pyStrip_of_all_space hws2
  have hws3 : pyStartswith (pyStrip ws) "/start" = false := by rw [hstrip]; decide
  have hws4 : pyStartswith (pyStrip ws) "/set_api_key" = false := by rw [hstrip]; decide
  have hws5 : pyStartswith (pyStrip ws) "/forget_key" = false := by rw [hstrip]; decide
  have hr1 := handle_update_pending_submission grok grokV getFileUrl st chat uid ws ph1 cp1
    hws1 hws3 hws4 hws5 hw
  rw [hstrip] at hr1
  have hr2 := handle_update_empty_key_warning grok grokV getFileUrl
    ({ st with
        user_api_keys := fun u => if u = uid then some "" else st.user_api_keys u,
        waiting_for_key := fun u => if u = uid then false else st.waiting_for_key u })
    chat uid t ph2 cp2 ht h1 h2 h3 (by simp) (by simp)
  rw [hr1]
  refine ⟨by simp, by simp, rfl, hr2, ?_⟩
  rw [hr2]
  simp

/-- Claim C9 witness: user 1 is pending, sends the single-space message " ",
then "hello": the stored credential is the empty string and the second message
is answered with the missing-key warning with no downstream call. -/
theorem c9_whitespace_key_lockout_witness :
    (handle_set_api_key_command 10 1 initState).1.waiting_for_key 1 = true ∧
    (" ").data.isEmpty = false ∧
    (" ").data.all pyIsSpace = true ∧
    ("hello").data.isEmpty = false ∧
    (handle_update oracleGrok oracleVision oracleGetFile
        (handle_set_api_key_command 10 1 initState).1
        (textUpdate 10 1 " " none none)).1.user_api_keys 1 = some "" ∧
    handle_update oracleGrok oracleVision oracleGetFile
        (handle_update oracleGrok oracleVision oracleGetFile
          (handle_set_api_key_command 10 1 initState).1
          (textUpdate 10 1 " " none none)).1
        (textUpdate 10 1 "hello" none none) =
      ((handle_update oracleGrok oracleVision oracleGetFile
          (handle_set_api_key_command 10 1 initState).1
          (textUpdate 10 1 " " none none)).1,
        [Effect.sendRaw 10 NO_KEY_WARNING]) :=
  ⟨by decide, by decide, by decide, by decide,
    (c9_whitespace_key_lockout oracleGrok oracleVision oracleGetFile
      (handle_set_api_key_command 10 1 initState).1 10 1 " " "hello" none none none none
      (by decide) (by decide) (by decide) (by decide) (by decide) (by decide)
      (by decide)).1,
    (c9_whitespace_key_lockout oracleGrok oracleVision oracleGetFile
      (handle_set_api_key_command 10 1 initState).1 10 1 " " "hello" none none none none
      (by decide) (by decide) (by decide) (by decide) (by decide) (by decide)
      (by decide)).2.2.2.1⟩

/-- Claim C10: an update carrying a message whose sender identity is absent is
ignored: no outbound send, no downstream call, and the session store (both the
credential map and the pending-key marker set) is returned unchanged — even if
the message has command text, chat text, a photo, or a caption. -/
theorem c10_missing_sender_ignored (grok : String → String → String)
    (grokV : String → String → String → String)
    (getFileUrl : String → Except String String) (st : BotState) (chat : Int)
    (t : Option String) (photo : Option (List String)) (caption : Option String) :
    handle_update grok grokV getFileUrl st
        { message := some
            { chat_id := chat, from_id := none, text := t,
              photo := photo, caption := caption } } =
      (st, []) :=
  rfl

end TGBot
